import Mathlib

/-!
Formal model of the prediction-enrichment and analytics pipeline implemented in
`streamlit_ui/dash.py`: the merge of external predictions into the uploaded
dataset, the conjunctive categorical filters, the KPI aggregations, the
chronologically sorted monthly time series and the sorted detail view.

Modelling conventions:
- a pandas DataFrame of rows is a `List` of records, in row order;
- numeric cells (quantity, price, predicted sales) are rationals;
- a pandas operation that raises is modelled with `Except` / `Option`
  (`Option.none` marks the raising / NaN outcome at the point it occurs);
- `sort_values` is modelled as a comparison sort by the sort key. The model's
  sort happens to be stable, but pandas' default `kind='quicksort'` is
  documented as unstable on tied keys, so no theorem below relies on the
  model's tie order: the sortedness statements are tie-order independent, and
  the tie order itself is treated as unspecified behavior of the code.
-/

/-- One row of the uploaded CSV, with the columns the dashboard reads:
Month, Year, Country, Channel, Product Class, Sales Team, Distributor,
Customer Name, Product Name, Quantity, Price. -/
structure SalesRecord where
  month : String
  year : Int
  country : String
  channel : String
  productClass : String
  salesTeam : String
  distributor : String
  customerName : String
  productName : String
  quantity : ℚ
  price : ℚ
deriving DecidableEq, Repr

/-- A row after `load_and_predict_data`: the original columns plus the
`predicted_sales` value from the scoring endpoint and the derived
`month_year` column. -/
structure EnrichedRecord extends SalesRecord where
  predicted_sales : ℚ
  month_year : String
deriving DecidableEq, Repr

/-- The failure taxonomy of the pipeline. -/
inductive PipelineError where
  | alignmentError
  | noDataError
  | parseError
deriving DecidableEq, Repr

/-- One enriched row: `predicted_sales` attached, and
`month_year = Month + " " + str(Year)` (line 24 of `dash.py`). -/
def enrichOne (r : SalesRecord) (p : ℚ) : EnrichedRecord :=
  { toSalesRecord := r
    predicted_sales := p
    month_year := r.month ++ " " ++ toString r.year }

/-- Models lines 21-26 of `dash.py`: `test_df['predicted_sales'] = predictions`
followed by the `month_year` derivation. pandas raises (`ValueError`) when the
assigned list's length differs from the index length, leaving no partially
enriched frame; that raising outcome is the `alignmentError` branch. -/
def merge (records : List SalesRecord) (predictions : List ℚ) :
    Except PipelineError (List EnrichedRecord) :=
  if records.length = predictions.length then
    Except.ok (List.zipWith enrichOne records predictions)
  else
    Except.error PipelineError.alignmentError

/-- The four sidebar selections (lines 76-89 of `dash.py`); the literal string
`"All"` is the wildcard sentinel. -/
structure FilterCriteria where
  country : String
  channel : String
  productClass : String
  salesTeam : String
deriving DecidableEq, Repr

/-- The all-wildcard criteria: every selectbox left on `"All"`. -/
def allWildcards : FilterCriteria :=
  { country := "All", channel := "All", productClass := "All", salesTeam := "All" }

/-- One `if selected != 'All': filtered_df = filtered_df[filtered_df[col] == selected]`
step (lines 94-101 of `dash.py`). -/
def filterDim (field : EnrichedRecord → String) (selected : String)
    (df : List EnrichedRecord) : List EnrichedRecord :=
  if selected = "All" then df else df.filter fun r => field r == selected

/-- The filter block of `create_dashboard` (lines 92-101): the four dimension
filters applied in source order. -/
def applyFilters (df : List EnrichedRecord) (c : FilterCriteria) :
    List EnrichedRecord :=
  filterDim (fun r => r.salesTeam) c.salesTeam
    (filterDim (fun r => r.productClass) c.productClass
      (filterDim (fun r => r.channel) c.channel
        (filterDim (fun r => r.country) c.country df)))

/-- A record satisfies the criteria when every non-wildcard dimension matches
exactly (case-sensitively). -/
def satisfies (r : EnrichedRecord) (c : FilterCriteria) : Prop :=
  (c.country ≠ "All" → r.country = c.country) ∧
  (c.channel ≠ "All" → r.channel = c.channel) ∧
  (c.productClass ≠ "All" → r.productClass = c.productClass) ∧
  (c.salesTeam ≠ "All" → r.salesTeam = c.salesTeam)

instance (r : EnrichedRecord) (c : FilterCriteria) : Decidable (satisfies r c) := by
  unfold satisfies
  infer_instance

/-- The options offered by one selectbox (lines 76-89):
`['All'] + sorted(df[col].unique().tolist())`. -/
def filterOptions (values : List String) : List String :=
  "All" :: List.insertionSort (fun a b => a ≤ b) values.dedup

/-- Sample input rows: the three-record scenario of the spec (section 8),
distributors A, A, B with January/February 2021 buckets. -/
def scenarioA : SalesRecord :=
  { month := "January", year := 2021, country := "Germany", channel := "Pharmacy"
    productClass := "Analgesics", salesTeam := "Delta", distributor := "A"
    customerName := "C1", productName := "P1", quantity := 2, price := 50 }

def scenarioB : SalesRecord :=
  { month := "January", year := 2021, country := "Poland", channel := "Hospital"
    productClass := "Antibiotics", salesTeam := "Bravo", distributor := "B"
    customerName := "C2", productName := "P2", quantity := 1, price := 50 }

def scenarioC : SalesRecord :=
  { month := "February", year := 2021, country := "Germany", channel := "Pharmacy"
    productClass := "Analgesics", salesTeam := "Delta", distributor := "A"
    customerName := "C3", productName := "P1", quantity := 3, price := 10 }

/-- The enriched scenario dataset: predictions 100, 50, 30. -/
def scenarioDf : List EnrichedRecord :=
  [enrichOne scenarioA 100, enrichOne scenarioB 50, enrichOne scenarioC 30]

/-- A record whose country is the literal string "All". -/
def recAll : SalesRecord :=
  { month := "March", year := 2021, country := "All", channel := "Pharmacy"
    productClass := "Analgesics", salesTeam := "Delta", distributor := "D"
    customerName := "C4", productName := "P3", quantity := 1, price := 5 }

def eAll : EnrichedRecord := enrichOne recAll 7

def eA : EnrichedRecord := enrichOne scenarioA 100

def eB : EnrichedRecord := enrichOne scenarioB 50

/-- Criteria selecting country Germany only. -/
def cGermany : FilterCriteria :=
  { country := "Germany", channel := "All", productClass := "All", salesTeam := "All" }

/-- Criteria selecting country France only (matches no scenario record). -/
def cFrance : FilterCriteria :=
  { country := "France", channel := "All", productClass := "All", salesTeam := "All" }

/-- Distinct values of one column, in the ascending key order pandas `groupby`
uses (modelled as a lexical stable sort of the distinct values). -/
def groupKeys (field : EnrichedRecord → String) (df : List EnrichedRecord) :
    List String :=
  List.insertionSort (fun a b => a ≤ b) (df.map field).dedup

/-- Sum of `predicted_sales` over the rows of one `month_year` bucket. -/
def bucketSum (df : List EnrichedRecord) (key : String) : ℚ :=
  ((df.filter fun r => r.month_year == key).map fun r => r.predicted_sales).sum

/-- Line 155-157 of `dash.py`:
`filtered_df.groupby('month_year')['predicted_sales'].sum().reset_index()` —
one `(month_year, summed predicted_sales)` pair per distinct bucket. -/
def monthlySales (df : List EnrichedRecord) : List (String × ℚ) :=
  (groupKeys (fun r => r.month_year) df).map fun k => (k, bucketSum df k)

/-- Line 104: `filtered_df['predicted_sales'].sum()`. -/
def total_sales (df : List EnrichedRecord) : ℚ :=
  (df.map fun r => r.predicted_sales).sum

/-- pandas `Series.mean()`: NaN on an empty series (modelled as `none`),
otherwise the sum divided by the length. -/
def seriesMean (values : List ℚ) : Option ℚ :=
  match values with
  | [] => none
  | _ => some (values.sum / values.length)

/-- Line 105: `filtered_df.groupby('month_year')['predicted_sales'].sum().mean()` —
the mean over per-bucket sums, not over rows. -/
def avg_monthly_sales (df : List EnrichedRecord) : Option ℚ :=
  seriesMean ((monthlySales df).map fun p => p.2)

/-- Per-group `predicted_sales` sums for one categorical column
(`groupby(col)['predicted_sales'].sum()`). -/
def groupSums (field : EnrichedRecord → String) (df : List EnrichedRecord) :
    List (String × ℚ) :=
  (groupKeys field df).map fun k =>
    (k, ((df.filter fun r => field r == k).map fun r => r.predicted_sales).sum)

/-- `sort_values(ascending=False)` on the per-group sums. -/
def rankedDesc (groups : List (String × ℚ)) : List (String × ℚ) :=
  List.insertionSort (fun a b => b.2 ≤ a.2) groups

/-- Lines 127-130: `.sort_values(ascending=False).index[0]` / `.iloc[0]`.
Indexing position 0 of an empty ranking raises `IndexError` in pandas; `none`
marks exactly that out-of-bounds access. -/
def top_distributor (df : List EnrichedRecord) : Option (String × ℚ) :=
  (rankedDesc (groupSums (fun r => r.distributor) df)).head?

/-- Lines 141-144: the same ranking over `Product Name`. -/
def top_product (df : List EnrichedRecord) : Option (String × ℚ) :=
  (rankedDesc (groupSums (fun r => r.productName) df)).head?

/-- The twelve recognized calendar month names, mapped to their 1-12 index. -/
def monthIndex : String → Option Nat
  | "January" => some 1
  | "February" => some 2
  | "March" => some 3
  | "April" => some 4
  | "May" => some 5
  | "June" => some 6
  | "July" => some 7
  | "August" => some 8
  | "September" => some 9
  | "October" => some 10
  | "November" => some 11
  | "December" => some 12
  | _ => none

/-- Models `pd.to_datetime(x, format='%B %Y')` as the chronological order key
`(year, month index)`; `none` where pandas raises on an unparseable value. -/
def toDatetime (s : String) : Option (Nat × Nat) :=
  match s.splitOn " " with
  | [m, y] =>
    match monthIndex m, y.toNat? with
    | some mi, some yr => some (yr, mi)
    | _, _ => none
  | _ => none

/-- Chronological comparison of order keys: earlier year first, then earlier
month within a year. -/
def chronoLe (a b : Nat × Nat) : Prop :=
  a.1 < b.1 ∨ (a.1 = b.1 ∧ a.2 ≤ b.2)

instance : DecidableRel chronoLe := fun a b => by
  unfold chronoLe
  infer_instance

instance : IsTrans (Nat × Nat) chronoLe :=
  ⟨by intro a b c hab hbc; unfold chronoLe at *; omega⟩

instance : IsTotal (Nat × Nat) chronoLe :=
  ⟨by intro a b; unfold chronoLe; omega⟩

/-- Comparison of key-carrying rows by their chronological key. -/
def keyLe {α : Type} (a b : (Nat × Nat) × α) : Prop :=
  chronoLe a.1 b.1

instance {α : Type} : DecidableRel (keyLe (α := α)) := fun a b => by
  unfold keyLe chronoLe
  infer_instance

instance {α : Type} : IsTrans ((Nat × Nat) × α) keyLe :=
  ⟨by intro a b c hab hbc; unfold keyLe chronoLe at *; omega⟩

instance {α : Type} : IsTotal ((Nat × Nat) × α) keyLe :=
  ⟨by intro a b; unfold keyLe chronoLe; omega⟩

/-- Boolean chronological comparison of two `month_year` strings: both parse
and the parsed order keys compare. -/
def chronoStrLeB (a b : String) : Bool :=
  match toDatetime a, toDatetime b with
  | some ka, some kb => decide (chronoLe ka kb)
  | _, _ => false

/-- Chronological comparison of two `month_year` strings: both parse and the
parsed keys compare. -/
def chronoStrLe (a b : String) : Prop :=
  chronoStrLeB a b = true

instance : DecidableRel chronoStrLe := fun a b => by
  unfold chronoStrLe
  infer_instance

/-- Models adding the `sort_key` column: each row is paired with its parsed
chronological key; `none` when `pd.to_datetime` raises on any row. -/
def attachKeys {α : Type} (key : α → String) : List α → Option (List ((Nat × Nat) × α))
  | [] => some []
  | r :: rest =>
    match toDatetime (key r), attachKeys key rest with
    | some k, some tail => some ((k, r) :: tail)
    | _, _ => none

/-- Models lines 164-167 / 200-203 of `dash.py`: attach the `sort_key` column
via `pd.to_datetime(..., format='%B %Y')`, `sort_values('sort_key')`, drop the
key. The raising parse is the `parseError` branch. The model sorts with a
stable insertion sort, but `sort_values` defaults to `kind='quicksort'`,
which is unstable: the real code's relative order of rows sharing a
`sort_key` is unspecified, so only tie-order-independent consequences
(permutation content, by-key sortedness) reflect a code guarantee. -/
def sortByMonthYear {α : Type} (key : α → String) (rows : List α) :
    Except PipelineError (List α) :=
  match attachKeys key rows with
  | none => Except.error PipelineError.parseError
  | some keyed => Except.ok ((List.insertionSort keyLe keyed).map fun p => p.2)

/-- Lines 155-167: the monthly time series, chronologically sorted. -/
def timeSeries (df : List EnrichedRecord) : Except PipelineError (List (String × ℚ)) :=
  sortByMonthYear (fun p => p.1) (monthlySales df)

/-- One row of the Detailed Data View: exactly the `display_columns` of
lines 192-194, in that order. -/
structure DisplayRow where
  month_year : String
  distributor : String
  customerName : String
  country : String
  channel : String
  productName : String
  productClass : String
  quantity : ℚ
  price : ℚ
  predicted_sales : ℚ
deriving DecidableEq, Repr

/-- The projection of one enriched row onto the display columns. -/
def displayRow (r : EnrichedRecord) : DisplayRow :=
  { month_year := r.month_year, distributor := r.distributor
    customerName := r.customerName, country := r.country, channel := r.channel
    productName := r.productName, productClass := r.productClass
    quantity := r.quantity, price := r.price, predicted_sales := r.predicted_sales }

/-- Lines 192-203: project the filtered rows onto the display columns and sort
them chronologically by `month_year`. -/
def detailView (df : List EnrichedRecord) : Except PipelineError (List DisplayRow) :=
  sortByMonthYear (fun r => r.month_year) (df.map displayRow)

/-- The widget state a script run reads: the uploaded file (already parsed
into rows) and the four sidebar selections. -/
structure WidgetState where
  uploaded : Option (List SalesRecord)
  selectedCountry : String
  selectedChannel : String
  selectedProductClass : String
  selectedSalesTeam : String
deriving DecidableEq, Repr

/-- The criteria built from the four selectboxes. -/
def criteriaOf (s : WidgetState) : FilterCriteria :=
  { country := s.selectedCountry, channel := s.selectedChannel
    productClass := s.selectedProductClass, salesTeam := s.selectedSalesTeam }

/-- Everything `create_dashboard` renders from the filtered dataset. -/
structure DashboardView where
  filtered : List EnrichedRecord
  totalCard : ℚ
  avgMonthlyCard : Option ℚ
  topDistributorCard : Option (String × ℚ)
  topProductCard : Option (String × ℚ)
  chart : Except PipelineError (List (String × ℚ))
  detailTable : Except PipelineError (List DisplayRow)

/-- Models one full execution of `create_dashboard` (lines 62-205) with
`predict` the external scoring service. The first component counts the
prediction requests (`load_and_predict_data` calls) the run issues. Streamlit
re-executes the whole script on every widget interaction, so changing any
filter selectbox triggers a fresh run of this function. -/
def createDashboardRun (predict : List SalesRecord → List ℚ) (s : WidgetState) :
    Nat × Option (Except PipelineError DashboardView) :=
  match s.uploaded with
  | none => (0, none)
  | some records =>
    match merge records (predict records) with
    | Except.error e => (1, some (Except.error e))
    | Except.ok df =>
      (1, some (Except.ok
        { filtered := applyFilters df (criteriaOf s)
          totalCard := total_sales (applyFilters df (criteriaOf s))
          avgMonthlyCard := avg_monthly_sales (applyFilters df (criteriaOf s))
          topDistributorCard := top_distributor (applyFilters df (criteriaOf s))
          topProductCard := top_product (applyFilters df (criteriaOf s))
          chart := timeSeries (applyFilters df (criteriaOf s))
          detailTable := detailView (applyFilters df (criteriaOf s)) }))

/-- Enriched rows whose buckets "March 2021", "January 2022", "December 2020"
are lexically out of chronological order. -/
def eMar : EnrichedRecord := enrichOne { scenarioA with month := "March" } 7

def eJan22 : EnrichedRecord :=
  enrichOne { scenarioA with month := "January", year := 2022 } 9

def eDec : EnrichedRecord :=
  enrichOne { scenarioA with month := "December", year := 2020 } 5

def chronoDf : List EnrichedRecord := [eMar, eJan22, eDec]

/-- The chronologically ordered time series of `chronoDf`. -/
def chronoExpected : List (String × ℚ) :=
  [("December 2020", 5), ("March 2021", 7), ("January 2022", 9)]

/-- A widget state with an uploaded file and a changed country filter. -/
def wState : WidgetState :=
  { uploaded := some [scenarioA, scenarioB, scenarioC]
    selectedCountry := "Germany", selectedChannel := "All"
    selectedProductClass := "All", selectedSalesTeam := "All" }

lemma mem_filterDim {field : EnrichedRecord → String} {selected : String}
    {df : List EnrichedRecord} {r : EnrichedRecord} :
    r ∈ filterDim field selected df ↔
      r ∈ df ∧ (selected ≠ "All" → field r = selected) := by
  unfold filterDim
  split
  · simp_all
  · simp_all [List.mem_filter]

lemma filterDim_sublist (field : EnrichedRecord → String) (selected : String)
    (df : List EnrichedRecord) : (filterDim field selected df).Sublist df := by
  unfold filterDim
  split
  · exact List.Sublist.refl df
  · exact List.filter_sublist df

lemma mem_applyFilters {df : List EnrichedRecord} {c : FilterCriteria}
    {r : EnrichedRecord} :
    r ∈ applyFilters df c ↔ r ∈ df ∧ satisfies r c := by
  unfold applyFilters satisfies
  simp only [mem_filterDim]
  tauto

lemma applyFilters_sublist (df : List EnrichedRecord) (c : FilterCriteria) :
    (applyFilters df c).Sublist df := by
  unfold applyFilters
  exact ((filterDim_sublist _ _ _).trans ((filterDim_sublist _ _ _).trans
    ((filterDim_sublist _ _ _).trans (filterDim_sublist _ _ _))))

lemma applyFilters_allWildcards (df : List EnrichedRecord) :
    applyFilters df allWildcards = df := by
  simp [applyFilters, filterDim, allWildcards]

lemma chronoStrLe_iff {a b : String} :
    chronoStrLe a b ↔
      ∃ ka kb, toDatetime a = some ka ∧ toDatetime b = some kb ∧ chronoLe ka kb := by
  unfold chronoStrLe chronoStrLeB
  rcases ha : toDatetime a with _ | ka <;> rcases hb : toDatetime b with _ | kb <;>
    simp [ha, hb]

lemma indicator_sum {κ : Type} [DecidableEq κ] {K : List κ} (hnd : K.Nodup)
    {k0 : κ} (hmem : k0 ∈ K) (v : ℚ) :
    (K.map fun k => if k0 = k then v else 0).sum = v := by
  induction K with
  | nil => cases hmem
  | cons k ks ih =>
    rcases List.mem_cons.mp hmem with h | h
    · subst h
      have hz : ((ks.map fun k => if k0 = k then v else 0)).sum = 0 := by
        refine List.sum_eq_zero ?_
        intro x hx
        rcases List.mem_map.mp hx with ⟨y, hy, rfl⟩
        have hne : k0 ≠ y := fun he => (List.nodup_cons.mp hnd).1 (he ▸ hy)
        simp [hne]
      simp [hz]
    · have hk : k0 ≠ k := by
        intro he
        exact (List.nodup_cons.mp hnd).1 (he ▸ h)
      simp only [List.map_cons, List.sum_cons, if_neg hk]
      rw [ih (List.nodup_cons.mp hnd).2 h, zero_add]

lemma partition_sum {α κ : Type} [DecidableEq κ] (key : α → κ) (val : α → ℚ)
    (K : List κ) (hnd : K.Nodup) (l : List α) (hcov : ∀ a ∈ l, key a ∈ K) :
    (K.map fun k => ((l.filter fun a => key a == k).map val).sum).sum
      = (l.map val).sum := by
  induction l with
  | nil => simp
  | cons a t ih =>
    have hmem : key a ∈ K := hcov a (List.mem_cons_self a t)
    have ht : ∀ x ∈ t, key x ∈ K := fun x hx => hcov x (List.mem_cons_of_mem a hx)
    have hstep : ∀ k ∈ K, (((a :: t).filter fun x => key x == k).map val).sum
        = (if key a = k then val a else 0)
          + ((t.filter fun x => key x == k).map val).sum := by
      intro k _
      by_cases h : key a = k
      · simp [List.filter_cons, h]
      · simp [List.filter_cons, h]
    calc (K.map fun k => (((a :: t).filter fun x => key x == k).map val).sum).sum
        = (K.map fun k => (if key a = k then val a else 0)
            + ((t.filter fun x => key x == k).map val).sum).sum := by
          rw [List.map_congr_left hstep]
      _ = (K.map fun k => if key a = k then val a else 0).sum
            + (K.map fun k => ((t.filter fun x => key x == k).map val).sum).sum := by
          rw [← List.sum_map_add]
      _ = val a + (t.map val).sum := by
          rw [ih ht, indicator_sum hnd hmem (val a)]
      _ = ((a :: t).map val).sum := by simp

lemma monthly_total (df : List EnrichedRecord) :
    ((monthlySales df).map fun p => p.2).sum = total_sales df := by
  unfold monthlySales total_sales bucketSum groupKeys
  rw [List.map_map]
  have hp : (List.insertionSort (fun a b => a ≤ b)
        (df.map fun r => r.month_year).dedup).Perm
      ((df.map fun r => r.month_year).dedup) :=
    List.perm_insertionSort _ _
  rw [(hp.map _).sum_eq]
  exact partition_sum (fun r => r.month_year) (fun r => r.predicted_sales) _
    (List.nodup_dedup _) df
    (fun a ha => List.mem_dedup.mpr (List.mem_map_of_mem _ ha))

lemma attachKeys_ok {α : Type} {key : α → String} :
    ∀ {rows : List α} {keyed : List ((Nat × Nat) × α)},
      attachKeys key rows = some keyed →
      keyed.map (fun p => p.2) = rows ∧
        ∀ p ∈ keyed, toDatetime (key p.2) = some p.1 := by
  intro rows
  induction rows with
  | nil =>
    intro keyed h
    simp only [attachKeys, Option.some.injEq] at h
    subst h
    simp
  | cons r rest ih =>
    intro keyed h
    unfold attachKeys at h
    rcases hd : toDatetime (key r) with _ | k <;> rw [hd] at h
    · cases h
    · rcases ht : attachKeys key rest with _ | tail <;> rw [ht] at h
      · cases h
      · simp only [Option.some.injEq] at h
        subst h
        obtain ⟨h1, h2⟩ := ih ht
        refine ⟨by simp [h1], ?_⟩
        intro p hp
        rcases List.mem_cons.mp hp with hp | hp
        · subst hp
          exact hd
        · exact h2 p hp

lemma sortByMonthYear_ok {α : Type} {key : α → String} {rows out : List α}
    (h : sortByMonthYear key rows = Except.ok out) :
    out.Perm rows ∧ (∀ r ∈ out, (toDatetime (key r)).isSome) ∧
      out.Pairwise fun p q => chronoStrLe (key p) (key q) := by
  unfold sortByMonthYear at h
  rcases hA : attachKeys key rows with _ | keyed <;> rw [hA] at h
  · cases h
  · simp only [Except.ok.injEq] at h
    obtain ⟨hmap, hkeys⟩ := attachKeys_ok hA
    have hps : (List.insertionSort keyLe keyed).Perm keyed :=
      List.perm_insertionSort _ _
    refine ⟨?_, ?_, ?_⟩
    · rw [← h, ← hmap]
      exact hps.map _
    · intro r hr
      rw [← h] at hr
      rcases List.mem_map.mp hr with ⟨p, hp, rfl⟩
      rw [hkeys p (hps.mem_iff.mp hp)]
      rfl
    · have hsorted : (List.insertionSort keyLe keyed).Pairwise keyLe :=
        List.sorted_insertionSort _ _
      have hsorted2 : (List.insertionSort keyLe keyed).Pairwise
          fun p q => chronoStrLe (key p.2) (key q.2) := by
        refine List.Pairwise.imp_of_mem ?_ hsorted
        intro a b ha hb hab
        exact chronoStrLe_iff.mpr
          ⟨a.1, b.1, hkeys a (hps.mem_iff.mp ha), hkeys b (hps.mem_iff.mp hb), hab⟩
      rw [← h]
      exact List.pairwise_map.mpr hsorted2

/-- C1: for every dataset of N records and prediction sequence of length N,
`merge` succeeds with exactly the N enriched records in input order (row i is
row i of the input enriched with prediction i); for every prediction sequence
whose length differs from N it fails with `alignmentError` and yields no
partially enriched dataset — it never truncates or pads. -/
theorem merge_alignment (records : List SalesRecord) (predictions : List ℚ) :
    (records.length = predictions.length →
      merge records predictions =
        Except.ok (List.zipWith enrichOne records predictions) ∧
      (List.zipWith enrichOne records predictions).length = records.length) ∧
    (records.length ≠ predictions.length →
      merge records predictions = Except.error PipelineError.alignmentError) := by
  constructor
  · intro h
    constructor
    · simp [merge, h]
    · simp [List.length_zipWith, h]
  · intro h
    simp [merge, h]

theorem merge_alignment_witness :
    merge [scenarioA] [100] = Except.ok [enrichOne scenarioA 100] ∧
    merge [scenarioA] [] = Except.error PipelineError.alignmentError :=
  ⟨((merge_alignment [scenarioA] [100]).1 rfl).1,
    (merge_alignment [scenarioA] []).2 (by decide)⟩

/-- C4: every record the filter keeps satisfies all non-wildcard constraints by
exact case-sensitive equality; every input record absent from the result
violates at least one constraint; the result is a subsequence of the input
(relative order preserved); and the all-wildcard criteria return the input
unchanged. -/
theorem applyFilters_conjunction (df : List EnrichedRecord) (c : FilterCriteria) :
    (∀ r ∈ applyFilters df c, satisfies r c) ∧
    (∀ r ∈ df, r ∉ applyFilters df c → ¬ satisfies r c) ∧
    (applyFilters df c).Sublist df ∧
    applyFilters df allWildcards = df := by
  refine ⟨fun r hr => (mem_applyFilters.mp hr).2,
    fun r hin hnot hsat => hnot (mem_applyFilters.mpr ⟨hin, hsat⟩),
    applyFilters_sublist df c,
    applyFilters_allWildcards df⟩

theorem applyFilters_conjunction_witness : satisfies eA cGermany :=
  (applyFilters_conjunction [eA, eB] cGermany).1 eA (by decide)

/-- C10: the wildcard sentinel is the literal string "All": selecting "All" on
a dimension returns the dataset unchanged even when some records carry the
categorical value "All" in that dimension, and when the dataset mixes
"All"-valued and other-valued records no selection can produce exactly the
"All"-valued records through that dimension. -/
theorem allSentinel_shadows (field : EnrichedRecord → String)
    (df : List EnrichedRecord) :
    filterDim field "All" df = df ∧
    ((∃ r ∈ df, field r = "All") → (∃ r ∈ df, field r ≠ "All") →
      ∀ selected, filterDim field selected df ≠
        df.filter fun r => field r == "All") := by
  constructor
  · simp [filterDim]
  · rintro ⟨a, ha, haAll⟩ ⟨b, hb, hbNe⟩ selected heq
    by_cases hsel : selected = "All"
    · rw [hsel] at heq
      simp only [filterDim, if_pos rfl] at heq
      have : b ∈ df.filter fun r => field r == "All" := heq ▸ hb
      exact hbNe (by simpa using (List.mem_filter.mp this).2)
    · simp only [filterDim, if_neg hsel] at heq
      have haL : a ∈ df.filter fun r => field r == "All" :=
        List.mem_filter.mpr ⟨ha, by simpa using haAll⟩
      have : a ∈ df.filter fun r => field r == selected := heq ▸ haL
      have : field a = selected := by simpa using (List.mem_filter.mp this).2
      exact hsel (haAll ▸ this.symm)

theorem allSentinel_shadows_witness :
    filterDim (fun r => r.country) "Germany" [eAll, eA] ≠
      ([eAll, eA].filter fun r => r.country == "All") :=
  (allSentinel_shadows (fun r => r.country) [eAll, eA]).2
    ⟨eAll, by decide⟩ ⟨eA, by decide⟩ "Germany"

/-- C2: evaluation of the Aggregation Engine and Detail View at a filter
combination matching zero records. The ranking takes position 0 of an empty
ranked list (`.index[0]` / `.iloc[0]`, an `IndexError` crash in pandas,
modelled as `none`) — no recoverable `noDataError` outcome is produced — while
the detail view of the empty set is the empty, non-crashing sequence. -/
theorem ranking_empty_crash :
    applyFilters scenarioDf cFrance = [] ∧
    top_distributor (applyFilters scenarioDf cFrance) = none ∧
    top_product (applyFilters scenarioDf cFrance) = none ∧
    detailView (applyFilters scenarioDf cFrance) = Except.ok [] := by
  refine ⟨?_, ?_, ?_, ?_⟩ <;> with_unfolding_all rfl

/-- C3: every successful time series is one point per `month_year` bucket with
the bucket's summed `predicted_sales` (a permutation of the grouped sums), and
its points are sorted ascending by the chronological key `(year, month index)`;
in particular the buckets "March 2021", "January 2022", "December 2020" come
out ordered December 2020, March 2021, January 2022, not lexically. -/
theorem timeSeries_chronological :
    (∀ df pts, timeSeries df = Except.ok pts →
      pts.Perm (monthlySales df) ∧
      pts.Pairwise fun p q => chronoStrLe p.1 q.1) ∧
    timeSeries chronoDf = Except.ok chronoExpected := by
  constructor
  · intro df pts h
    obtain ⟨hperm, _, hpair⟩ := sortByMonthYear_ok h
    exact ⟨hperm, hpair⟩
  · with_unfolding_all rfl

theorem timeSeries_chronological_witness :
    chronoExpected.Perm (monthlySales chronoDf) ∧
    chronoExpected.Pairwise fun p q => chronoStrLe p.1 q.1 :=
  timeSeries_chronological.1 chronoDf chronoExpected timeSeries_chronological.2

/-- C5: the total KPI is the sum of `predicted_sales` over the filtered rows
(zero on the empty set) and equals the sum of the values of the time-series
points computed from the same filtered set. -/
theorem aggregation_consistency :
    (∀ df, total_sales df = (df.map fun r => r.predicted_sales).sum) ∧
    total_sales [] = 0 ∧
    (∀ df, ((monthlySales df).map fun p => p.2).sum = total_sales df) ∧
    (∀ df pts, timeSeries df = Except.ok pts →
      (pts.map fun p => p.2).sum = total_sales df) ∧
    timeSeries scenarioDf =
      Except.ok [("January 2021", 150), ("February 2021", 30)] := by
  refine ⟨fun df => rfl, rfl, monthly_total, ?_, ?_⟩
  · intro df pts h
    obtain ⟨hperm, _, _⟩ := sortByMonthYear_ok h
    rw [(hperm.map fun p => p.2).sum_eq]
    exact monthly_total df
  · with_unfolding_all rfl

theorem aggregation_consistency_witness :
    (([("January 2021", (150 : ℚ)), ("February 2021", 30)]).map fun p => p.2).sum
      = total_sales scenarioDf :=
  aggregation_consistency.2.2.2.1 scenarioDf _ aggregation_consistency.2.2.2.2

/-- C6: evaluation of the monthly-average KPI. On the spec scenario it is the
mean over per-bucket sums, 90 — not the per-record mean, which is 60 — and on
an empty filtered set `groupby(...).sum().mean()` is pandas NaN (`none`):
the code renders that NaN instead of signalling the specified `noDataError`. -/
theorem avg_monthly_eval :
    avg_monthly_sales scenarioDf = some 90 ∧
    seriesMean (scenarioDf.map fun r => r.predicted_sales) = some 60 ∧
    avg_monthly_sales [] = none := by
  refine ⟨?_, ?_, ?_⟩ <;> with_unfolding_all rfl

/-- C7: the detail view projects each filtered row onto exactly the ten display
columns in the fixed order month_year, distributor, customer name, country,
channel, product name, product class, quantity, price, predicted sales; it
aggregates nothing (the rows are a permutation of the projected input) and is
sorted ascending by the chronological key of the time bucket, as the
out-of-lexical-order example `chronoDf` shows. -/
theorem detailView_spec :
    (∀ r, displayRow r = DisplayRow.mk r.month_year r.distributor r.customerName
      r.country r.channel r.productName r.productClass r.quantity r.price
      r.predicted_sales) ∧
    (∀ df rows, detailView df = Except.ok rows →
      rows.Perm (df.map displayRow) ∧
      rows.Pairwise fun p q => chronoStrLe p.month_year q.month_year) ∧
    detailView chronoDf =
      Except.ok [displayRow eDec, displayRow eMar, displayRow eJan22] := by
  refine ⟨fun r => rfl, ?_, ?_⟩
  · intro df rows h
    obtain ⟨hperm, _, hpair⟩ := sortByMonthYear_ok h
    exact ⟨hperm, hpair⟩
  · with_unfolding_all rfl

theorem detailView_spec_witness :
    ([displayRow eDec, displayRow eMar, displayRow eJan22]).Perm
      (chronoDf.map displayRow) :=
  (detailView_spec.2.1 chronoDf _ detailView_spec.2.2).1

/-- C8: every script run with an uploaded file issues exactly one prediction
request. Streamlit re-executes `create_dashboard` whenever a filter selectbox
changes, so the re-filter run again posts to the prediction endpoint instead
of reusing the enriched dataset already computed. -/
theorem rerun_reinvokes_prediction (predict : List SalesRecord → List ℚ)
    (s : WidgetState) (records : List SalesRecord)
    (h : s.uploaded = some records) :
    (createDashboardRun predict s).1 = 1 := by
  unfold createDashboardRun
  rw [h]
  cases hm : merge records (predict records) <;> simp [hm]

theorem rerun_reinvokes_prediction_witness :
    (createDashboardRun (fun rs => rs.map fun _ => 100) wState).1 = 1 :=
  rerun_reinvokes_prediction _ wState [scenarioA, scenarioB, scenarioC] rfl

/-- C9: the chronological sort key does not determine the relative order of
rows sharing a time bucket: the two orders of a tied pair of detail rows are
distinct sequences, permutations of each other, and both sorted ascending by
the key. Being sorted by the key — all `sort_values` guarantees under its
default unstable `kind='quicksort'` — therefore does not force a re-sort of an
already sorted sequence to return the identical sequence once a bucket holds
more than one row. -/
theorem sorted_ties_not_unique :
    [displayRow eA, displayRow eB] ≠ [displayRow eB, displayRow eA] ∧
    ([displayRow eA, displayRow eB]).Perm [displayRow eB, displayRow eA] ∧
    ([displayRow eA, displayRow eB]).Pairwise
      (fun p q => chronoStrLe p.month_year q.month_year) ∧
    ([displayRow eB, displayRow eA]).Pairwise
      (fun p q => chronoStrLe p.month_year q.month_year) := by
  refine ⟨by with_unfolding_all decide,
    List.Perm.swap (displayRow eB) (displayRow eA) [],
    by with_unfolding_all decide, by with_unfolding_all decide⟩
